import Mathlib

/-!
Shallow embedding of the Pet-Care-Advisor diagnostic core
(app/models/knowledge_base.py, app/models/pet.py, app/utils/rule_processor.py,
app/utils/inference_engine.py).

Python floats are modelled by rationals, Python dicts by insertion-ordered
association lists (`List (String × _)`), dict `.values()` iteration by a list
of entities in insertion order, Python string containment (`x in s`) by the
infix relation on the character lists, and the case-mapping string methods
by character-wise maps so that everything evaluates by kernel reduction.
-/

namespace PetCare

attribute [local semireducible] Rat.mul Rat.inv Rat.add Rat.sub

/-- Mirrors the `Symptom` dataclass of app/models/knowledge_base.py. -/
structure Symptom where
  id : String
  name : String
  category : String
  severity_levels : List String
  description : String
  common_pets : List String
deriving DecidableEq, Repr

/-- Mirrors the `Condition` dataclass of app/models/knowledge_base.py. -/
structure Condition where
  id : String
  name : String
  category : String
  severity : String
  required_symptoms : List String
  optional_symptoms : List String
  exclusion_symptoms : List String
  confidence_threshold : ℚ
  description : String
  emergency_level : String
deriving DecidableEq, Repr

/-- Mirrors the `Treatment` dataclass of app/models/knowledge_base.py. -/
structure Treatment where
  id : String
  condition_id : String
  treatment_type : String
  description : String
  instructions : List String
  duration : String
  precautions : List String
  when_to_seek_help : List String
deriving DecidableEq, Repr

/-- A `risk_factors` mapping conditionId → multiplier, as held in rules.json:
a Python dict, modelled as an insertion-ordered association list. -/
abbrev RiskFactors := List (String × ℚ)

/-- One entry of the species / age_categories tables of rules.json.  The
`risk_factors` key may be absent (the code guards with
`if 'risk_factors' in species_rules`). -/
structure RiskRules where
  risk_factors : Option RiskFactors
deriving DecidableEq, Repr

/-- The `pet_specific_rules` JSON document: `species` and `age_categories`
dicts, each mapping a name to a rules record. -/
structure PetRules where
  species : List (String × RiskRules)
  age_categories : List (String × RiskRules)
deriving DecidableEq, Repr

/-- The empty rules record, the `{}` default of `rules.get(...).get(..., {})`. -/
def RiskRules.empty : RiskRules := ⟨none⟩

/-- Python's `d.get(k, {})` on the species / age_categories dicts. -/
def lookupRules (table : List (String × RiskRules)) (key : String) : RiskRules :=
  (List.lookup key table).getD RiskRules.empty

/-- Mirrors the `KnowledgeBase` catalogs (app/models/knowledge_base.py):
`symptoms`, `conditions`, `treatments` are dicts keyed by id whose `.values()`
iterate in insertion order, modelled as the value lists in that order, plus
the `pet_specific_rules` document. -/
structure KnowledgeBase where
  symptoms : List Symptom
  conditions : List Condition
  treatments : List Treatment
  pet_specific_rules : PetRules
deriving DecidableEq, Repr

/-- Python `str.lower()`, modelled character-wise so that it evaluates by
kernel reduction. -/
def pyLower (s : String) : String :=
  String.mk (s.data.map Char.toLower)

/-- Python `str.replace('_', ' ')`, modelled character-wise. -/
def pyReplaceUnderscore (s : String) : String :=
  String.mk (s.data.map fun c => if c = '_' then ' ' else c)

/-- Mirrors the `Pet` dataclass of app/models/pet.py, with `age` as ℚ. -/
structure Pet where
  name : String
  species : String
  breed : Option String
  age : ℚ
  weight : Option ℚ
  gender : String
  medical_history : List String
  current_medications : List String
  allergies : List String
  last_vet_visit : Option String
deriving DecidableEq, Repr

/-- Mirrors `Pet.get_age_category` of app/models/pet.py. -/
def Pet.get_age_category (p : Pet) : String :=
  if pyLower p.species = "dog" then
    if p.age < 1/2 then "puppy"
    else if p.age < 7 then "adult"
    else "senior"
  else if pyLower p.species = "cat" then
    if p.age < 1/2 then "kitten"
    else if p.age < 10 then "adult"
    else "senior"
  else "unknown"

/-- Mirrors `Pet.is_senior` of app/models/pet.py. -/
def Pet.is_senior (p : Pet) : Bool :=
  p.get_age_category = "senior"

/-- Mirrors the `DiagnosisSession` dataclass of app/models/pet.py; the
timestamp is carried opaquely as a string (only `isoformat()` is ever taken). -/
structure DiagnosisSession where
  pet : Pet
  reported_symptoms : List String
  symptom_details : List (String × String)
  timestamp : String
  session_id : String
deriving DecidableEq, Repr

/-- Mirrors `KnowledgeBase.get_conditions_for_symptoms`
(app/models/knowledge_base.py lines 105-121): keep a condition when all its
required symptoms are reported and none of its exclusion symptoms is. -/
def get_conditions_for_symptoms (kb : KnowledgeBase) (symptom_ids : List String) :
    List Condition :=
  kb.conditions.filter fun condition =>
    (condition.required_symptoms.all fun req => decide (req ∈ symptom_ids)) &&
    !(condition.exclusion_symptoms.any fun excl => decide (excl ∈ symptom_ids))

/-- Mirrors `KnowledgeBase.calculate_confidence`
(app/models/knowledge_base.py lines 123-139): weighted symptom-match score,
guarded against an empty denominator and clamped at 1. -/
def calculate_confidence (condition : Condition) (present_symptoms : List String) : ℚ :=
  let total_possible :=
    condition.required_symptoms.length + condition.optional_symptoms.length
  if total_possible = 0 then 0
  else
    let required_score : ℚ :=
      2 * ((condition.required_symptoms.filter fun s => decide (s ∈ present_symptoms)).length)
    let optional_score : ℚ :=
      ((condition.optional_symptoms.filter fun s => decide (s ∈ present_symptoms)).length)
    let max_possible_score : ℚ :=
      2 * condition.required_symptoms.length + condition.optional_symptoms.length
    min ((required_score + optional_score) / max_possible_score) 1

/-- Python string containment `needle in hay` on ids. -/
def strContains (hay needle : String) : Bool :=
  decide (needle.toList <:+: hay.toList)

/-- Python dict assignment `m[k] = v` on an insertion-ordered association
list: update in place when the key exists, append otherwise. -/
def dictSet : RiskFactors → String → ℚ → RiskFactors
  | [], k, v => [(k, v)]
  | (k1, v1) :: rest, k, v =>
    if k1 = k then (k1, v) :: rest else (k1, v1) :: dictSet rest k v

/-- Mirrors the `modified_assessment` dict built by
`RuleProcessor.apply_pet_specific_rules` (app/utils/rule_processor.py). -/
structure ModifiedAssessment where
  risk_multipliers : RiskFactors
  additional_symptoms : List String
  exclusions : List String
  urgency_modifiers : List (String × ℚ)
deriving DecidableEq, Repr

/-- Body of the species loop of `apply_pet_specific_rules`
(app/utils/rule_processor.py lines 27-29): plain dict assignment. -/
def dictCopyStep (m : RiskFactors) (kv : String × ℚ) : RiskFactors :=
  dictSet m kv.1 kv.2

/-- Body of the age loop of `apply_pet_specific_rules`
(app/utils/rule_processor.py lines 32-37): multiply on key collision,
assign otherwise. -/
def ageMergeStep (m : RiskFactors) (kv : String × ℚ) : RiskFactors :=
  match List.lookup kv.1 m with
  | some old => dictSet m kv.1 (old * kv.2)
  | none => dictSet m kv.1 kv.2

/-- Mirrors `RuleProcessor.apply_pet_specific_rules`
(app/utils/rule_processor.py lines 11-39): copy the species risk factors into
a fresh map, then fold in the age risk factors, multiplying on key collision.
The `if 'risk_factors' in ...` guard (the loop body never runs when the key is
absent) is modelled by folding over the empty default list. -/
def apply_pet_specific_rules (kb : KnowledgeBase) (pet : Pet)
    (_symptoms : List String) : ModifiedAssessment :=
  let rules := kb.pet_specific_rules
  let species_rules := lookupRules rules.species (pyLower pet.species)
  let age_rules := lookupRules rules.age_categories pet.get_age_category
  let afterSpecies : RiskFactors :=
    (species_rules.risk_factors.getD []).foldl dictCopyStep []
  let afterAge : RiskFactors :=
    (age_rules.risk_factors.getD []).foldl ageMergeStep afterSpecies
  { risk_multipliers := afterAge, additional_symptoms := [],
    exclusions := [], urgency_modifiers := [] }

/-- The hardcoded emergency-symptom dict of
`RuleProcessor.check_emergency_conditions` (app/utils/rule_processor.py
lines 43-52). -/
def emergency_symptoms_table : List (String × String) :=
  [("difficulty_breathing", "critical"),
   ("severe_bleeding", "critical"),
   ("unconscious", "critical"),
   ("seizures", "critical"),
   ("severe_trauma", "critical"),
   ("bloated_abdomen", "high"),
   ("persistent_vomiting", "high"),
   ("inability_to_urinate", "high")]

/-- Python `str.title()`: uppercase every alphabetic character that follows a
non-alphabetic one, lowercase the rest. -/
def pyTitleGo : Bool → List Char → List Char
  | _, [] => []
  | prevAlpha, c :: cs =>
    let c2 := if c.isAlpha then (if prevAlpha then c.toLower else c.toUpper) else c
    c2 :: pyTitleGo c.isAlpha cs

/-- Python `str.title()` on a string. -/
def pyTitle (s : String) : String :=
  String.mk (pyTitleGo false s.toList)

/-- The alert f-string of `RuleProcessor.check_emergency_conditions`
(app/utils/rule_processor.py line 60). -/
def alert_message (symptom : String) : String :=
  "URGENT: " ++ pyTitle (pyReplaceUnderscore symptom)
    ++ " requires immediate veterinary attention"

/-- Loop body of `RuleProcessor.check_emergency_conditions`
(app/utils/rule_processor.py lines 57-65): on a table hit, append one alert
and raise the tracked maximal urgency. -/
def emergencyStep (acc : List String × String) (symptom : String) :
    List String × String :=
  match List.lookup symptom emergency_symptoms_table with
  | none => acc
  | some urgency =>
    let alerts := acc.1 ++ [alert_message symptom]
    let max_urgency :=
      if urgency = "critical" then "critical"
      else if urgency = "high" ∧ acc.2 ≠ "critical" then "high"
      else acc.2
    (alerts, max_urgency)

/-- Mirrors `RuleProcessor.check_emergency_conditions`
(app/utils/rule_processor.py lines 41-67): scan the reported list, emit one
alert per table hit, track the maximal urgency, and flag an emergency when
that maximum is high or critical. -/
def check_emergency_conditions (symptoms : List String) (_pet : Pet) :
    Bool × List String :=
  let final := symptoms.foldl emergencyStep ([], "low")
  (decide (final.2 = "high" ∨ final.2 = "critical"), final.1)

/-- Mirrors `RuleProcessor.apply_exclusion_rules`
(app/utils/rule_processor.py lines 69-98): drop a condition on an age-based
or species-based id-marker exclusion, keep the rest in order. -/
def apply_exclusion_rules (conditions : List Condition) (_symptoms : List String)
    (pet : Pet) : List Condition :=
  conditions.filter fun condition =>
    let ageExclude : Bool :=
      if pet.age < 1 ∧ strContains condition.id "adult_only" then true
      else if pet.age > 10 ∧ strContains condition.id "young_only" then true
      else false
    let species_exclusions : List (String × List String) :=
      [("feline_only", ["dog", "bird", "rabbit"]),
       ("canine_only", ["cat", "bird", "rabbit"])]
    let speciesExclude : Bool :=
      species_exclusions.any fun kv =>
        strContains condition.id kv.1 && decide (pyLower pet.species ∈ kv.2)
    !(ageExclude || speciesExclude)

/-- One entry of the `condition_scores` list built by
`InferenceEngine.diagnose` (app/utils/inference_engine.py lines 55-60). -/
structure ScoreRecord where
  condition : Condition
  confidence : ℚ
  base_confidence : ℚ
  risk_multiplier : ℚ
deriving DecidableEq, Repr

/-- The recommendations dict of `InferenceEngine._generate_recommendations`;
absent keys are `none`. -/
structure Recommendations where
  primary_action : Option String := none
  home_care : Option (List String) := none
  vet_consultation : Option String := none
  primary_diagnosis : Option String := none
  confidence : Option ℚ := none
  severity : Option String := none
  treatment_type : Option String := none
  description : Option String := none
  instructions : Option (List String) := none
  duration : Option String := none
  precautions : Option (List String) := none
  seek_help_if : Option (List String) := none
deriving DecidableEq, Repr

/-- The result dict returned by `InferenceEngine.diagnose`; keys that a
branch does not set are `none` (the `conditions` key appears in both
branches). -/
structure DiagnosisResult where
  emergency : Bool
  alerts : Option (List String) := none
  recommendation : Option String := none
  confidence : Option ℚ := none
  conditions : List ScoreRecord := []
  recommendations : Option Recommendations := none
  pet_specific_notes : Option (List String) := none
  follow_up_questions : Option (List String) := none
  session_id : Option String := none
  timestamp : Option String := none
deriving DecidableEq, Repr

/-- Mirrors `InferenceEngine._generate_recommendations`
(app/utils/inference_engine.py lines 82-115). -/
def generate_recommendations (kb : KnowledgeBase) (conditions : List ScoreRecord)
    (_pet : Pet) : Recommendations :=
  match conditions with
  | [] =>
    { primary_action := some "Monitor symptoms and consult veterinarian if they persist",
      home_care := some ["Ensure pet is comfortable", "Monitor for changes"],
      vet_consultation := some "Recommended if symptoms worsen or persist beyond 24-48 hours" }
  | top_condition :: _ =>
    let condition_id := top_condition.condition.id
    let treatments := kb.treatments.filter fun t => decide (t.condition_id = condition_id)
    let base : Recommendations :=
      { primary_diagnosis := some top_condition.condition.name,
        confidence := some top_condition.confidence,
        severity := some top_condition.condition.severity }
    match treatments with
    | [] => base
    | treatment :: _ =>
      { base with
        treatment_type := some treatment.treatment_type,
        description := some treatment.description,
        instructions := some treatment.instructions,
        duration := some treatment.duration,
        precautions := some treatment.precautions,
        seek_help_if := some treatment.when_to_seek_help }

/-- Mirrors `InferenceEngine._generate_pet_specific_notes`
(app/utils/inference_engine.py lines 117-133). -/
def generate_pet_specific_notes (pet : Pet) (_symptoms : List String) :
    List String :=
  (if pet.is_senior then
    ["Senior pets may require more frequent monitoring and veterinary care."] else []) ++
  (if pet.age < 1 then
    ["Young pets can deteriorate quickly - monitor closely for changes."] else []) ++
  (if pet.medical_history ≠ [] then
    ["Consider pet\x27s medical history when evaluating symptoms."] else []) ++
  (if pet.current_medications ≠ [] then
    ["Current medications may affect symptoms or treatment options."] else [])

/-- Mirrors `InferenceEngine._generate_follow_up_questions`
(app/utils/inference_engine.py lines 135-155). -/
def generate_follow_up_questions (conditions : List ScoreRecord) : List String :=
  match conditions with
  | [] =>
    ["How long have the symptoms been present?",
     "Have you noticed any changes in eating or drinking habits?",
     "Has your pet been exposed to any new environments or animals?"]
  | top :: _ =>
    ["Have you noticed any other symptoms related to " ++ top.condition.category ++ "?",
     "When did you first notice these symptoms?",
     "Have the symptoms been getting better, worse, or staying the same?"]

/-- Scoring stage of `InferenceEngine.diagnose`
(app/utils/inference_engine.py lines 46-60): base confidence times the risk
multiplier looked up with default 1, clamped at 1. -/
def score_conditions (kb : KnowledgeBase) (filtered : List Condition)
    (mods : ModifiedAssessment) (symptoms : List String) : List ScoreRecord :=
  filtered.map fun condition =>
    let base_confidence := calculate_confidence condition symptoms
    let multiplier := (List.lookup condition.id mods.risk_multipliers).getD 1
    { condition := condition,
      confidence := min (base_confidence * multiplier) 1,
      base_confidence := base_confidence,
      risk_multiplier := multiplier }

/-- Stable insertion step of the descending sort: the inserted record stays
ahead of records of equal confidence that followed it in the original list. -/
def insertDesc (x : ScoreRecord) : List ScoreRecord → List ScoreRecord
  | [] => [x]
  | y :: ys => if x.confidence < y.confidence then y :: insertDesc x ys else x :: y :: ys

/-- The stable descending-by-confidence sort modelling
`condition_scores.sort(key=..., reverse=True)` of
app/utils/inference_engine.py line 63 (Python list.sort is stable). -/
def sortDesc : List ScoreRecord → List ScoreRecord
  | [] => []
  | x :: xs => insertDesc x (sortDesc xs)

/-- Mirrors `InferenceEngine.diagnose` (app/utils/inference_engine.py
lines 16-80): emergency gate, candidate retrieval, pet-specific rules,
exclusion filtering, scoring, ranking and thresholding, output assembly. -/
def diagnose (kb : KnowledgeBase) (session : DiagnosisSession) : DiagnosisResult :=
  let emergencyCheck := check_emergency_conditions session.reported_symptoms session.pet
  if emergencyCheck.1 then
    { emergency := true,
      alerts := some emergencyCheck.2,
      recommendation := some "SEEK IMMEDIATE VETERINARY ATTENTION",
      confidence := some 1,
      conditions := [] }
  else
    let potential_conditions := get_conditions_for_symptoms kb session.reported_symptoms
    let pet_modifications := apply_pet_specific_rules kb session.pet session.reported_symptoms
    let filtered_conditions :=
      apply_exclusion_rules potential_conditions session.reported_symptoms session.pet
    let condition_scores :=
      score_conditions kb filtered_conditions pet_modifications session.reported_symptoms
    let sorted_scores := sortDesc condition_scores
    let probable_conditions :=
      sorted_scores.filter fun r => decide (r.condition.confidence_threshold ≤ r.confidence)
    { emergency := false,
      conditions := probable_conditions.take 3,
      recommendations := some (generate_recommendations kb probable_conditions session.pet),
      pet_specific_notes :=
        some (generate_pet_specific_notes session.pet session.reported_symptoms),
      follow_up_questions := some (generate_follow_up_questions probable_conditions),
      session_id := some session.session_id,
      timestamp := some session.timestamp }

/-- Helper for Python `format(q, ".1f")` on a nonnegative rational:
one decimal digit, ties rounded to even. -/
def fmtFixed1Nonneg (q : ℚ) : String :=
  let n : ℚ := q * 10
  let f : ℤ := Int.floor n
  let frac : ℚ := n - f
  let r : ℤ :=
    if frac > 1/2 then f + 1
    else if frac < 1/2 then f
    else if f % 2 = 0 then f else f + 1
  toString (r / 10) ++ "." ++ toString (r % 10)

/-- Python `format(q, ".1f")`. -/
def fmtFixed1 (q : ℚ) : String :=
  if q < 0 then "-" ++ fmtFixed1Nonneg (-q) else fmtFixed1Nonneg q

/-- Python `format(q, ".1%")`. -/
def fmtPercent1 (q : ℚ) : String :=
  fmtFixed1 (q * 100) ++ "%"

/-- Mirrors `InferenceEngine.explain_reasoning`
(app/utils/inference_engine.py lines 157-179). -/
def explain_reasoning (diagnosis_result : DiagnosisResult) : String :=
  if diagnosis_result.emergency then
    "Emergency condition detected based on critical symptoms requiring immediate attention."
  else
    match diagnosis_result.conditions with
    | [] =>
      "No specific conditions identified. Symptoms may be minor or require additional information."
    | conditions =>
      let explanations := (conditions.take 2).map fun condition_data =>
        let condition := condition_data.condition
        "**" ++ condition.name ++ "** (Confidence: "
          ++ fmtPercent1 condition_data.confidence ++ "): "
          ++ "Matches " ++ toString condition.required_symptoms.length ++ " required symptoms"
          ++ (if condition_data.risk_multiplier ≠ 1 then
                " with " ++ fmtFixed1 condition_data.risk_multiplier
                  ++ "x risk adjustment for your pet"
              else "")
      String.intercalate " | " explanations

/-- The species risk-factor dict selected for a pet (`[]` when absent). -/
def speciesFactors (kb : KnowledgeBase) (pet : Pet) : RiskFactors :=
  (lookupRules kb.pet_specific_rules.species (pyLower pet.species)).risk_factors.getD []

/-- The age-category risk-factor dict selected for a pet (`[]` when absent). -/
def ageFactors (kb : KnowledgeBase) (pet : Pet) : RiskFactors :=
  (lookupRules kb.pet_specific_rules.age_categories pet.get_age_category).risk_factors.getD []

/-- State of one knowledge source file on disk: absent, present but failing
to parse into its expected shape, or present and valid with its payload. -/
inductive SourceState (α : Type) where
  | missing : SourceState α
  | invalid : String → SourceState α
  | valid : α → SourceState α
deriving DecidableEq, Repr

/-- True unless the source is present but structurally invalid. -/
def SourceState.isOk {α : Type} : SourceState α → Bool
  | .invalid _ => false
  | _ => true

/-- Payload of a source, with the given default for an absent or invalid one. -/
def sourcePayload {α : Type} (dflt : α) : SourceState α → α
  | .valid d => d
  | _ => dflt

/-- The four files of the data directory read by `KnowledgeBase.load_knowledge`. -/
structure DataDir where
  symptomsSrc : SourceState (List Symptom)
  conditionsSrc : SourceState (List Condition)
  treatmentsSrc : SourceState (List Treatment)
  rulesSrc : SourceState PetRules
deriving DecidableEq, Repr

/-- Mirrors `KnowledgeBase._load_symptoms` (app/models/knowledge_base.py
lines 63-71): absent file skipped (catalog untouched), parse failure raised. -/
def load_symptoms : SourceState (List Symptom) → Except String (List Symptom)
  | .missing => .ok []
  | .invalid e => .error e
  | .valid d => .ok d

/-- Mirrors `KnowledgeBase._load_conditions` (lines 73-81). -/
def load_conditions : SourceState (List Condition) → Except String (List Condition)
  | .missing => .ok []
  | .invalid e => .error e
  | .valid d => .ok d

/-- Mirrors `KnowledgeBase._load_treatments` (lines 83-91). -/
def load_treatments : SourceState (List Treatment) → Except String (List Treatment)
  | .missing => .ok []
  | .invalid e => .error e
  | .valid d => .ok d

/-- The empty rules document. -/
def emptyPetRules : PetRules := ⟨[], []⟩

/-- Mirrors `KnowledgeBase._load_pet_rules` (lines 93-98). -/
def load_pet_rules : SourceState PetRules → Except String PetRules
  | .missing => .ok emptyPetRules
  | .invalid e => .error e
  | .valid d => .ok d

/-- Mirrors `KnowledgeBase.load_knowledge` (app/models/knowledge_base.py
lines 53-61): the four loads run in order inside one try/except, so the first
raising load aborts the remaining ones; the exception is caught and printed
(second component), never re-raised, so startup does not fail. -/
def load_knowledge (dir : DataDir) : KnowledgeBase × Option String :=
  match load_symptoms dir.symptomsSrc with
  | .error e => (⟨[], [], [], emptyPetRules⟩, some e)
  | .ok syms =>
    match load_conditions dir.conditionsSrc with
    | .error e => (⟨syms, [], [], emptyPetRules⟩, some e)
    | .ok conds =>
      match load_treatments dir.treatmentsSrc with
      | .error e => (⟨syms, conds, [], emptyPetRules⟩, some e)
      | .ok trs =>
        match load_pet_rules dir.rulesSrc with
        | .error e => (⟨syms, conds, trs, emptyPetRules⟩, some e)
        | .ok rules => (⟨syms, conds, trs, rules⟩, none)

/-!  Heap model for the frame claim: Python dict objects addressed by
references, so that the risk-multiplier merge can be shown to write only to
the dict it freshly allocates and to leave the stored rule table unchanged. -/

/-- Heap address of a dict object. -/
abbrev Addr := ℕ

/-- A heap of risk-factor dict objects. -/
abbrev Heap := List (Addr × RiskFactors)

/-- Read a dict object. -/
def heapLookup (h : Heap) (a : Addr) : Option RiskFactors :=
  List.lookup a h

/-- Write a dict object (update in place, allocate when absent). -/
def heapWrite : Heap → Addr → RiskFactors → Heap
  | [], a, d => [(a, d)]
  | (a1, d1) :: rest, a, d =>
    if a1 = a then (a1, d) :: rest else (a1, d1) :: heapWrite rest a d

/-- An address not used by any object of the heap. -/
def freshAddr (h : Heap) : Addr :=
  (h.map Prod.fst).foldr max 0 + 1

/-- A rules entry whose `risk_factors` dict is held by reference. -/
structure RiskRulesRef where
  risk_factors : Option Addr
deriving DecidableEq, Repr

/-- The `pet_specific_rules` document with by-reference risk-factor dicts. -/
structure PetRulesRef where
  species : List (String × RiskRulesRef)
  age_categories : List (String × RiskRulesRef)
deriving DecidableEq, Repr

/-- The species rules entry selected for a pet (`rules.get('species',
{}).get(pet.species.lower(), {})`), in the heap model. -/
def speciesRulesRef (rules : PetRulesRef) (pet : Pet) : RiskRulesRef :=
  (List.lookup (pyLower pet.species) rules.species).getD ⟨none⟩

/-- The age-category rules entry selected for a pet, in the heap model. -/
def ageRulesRef (rules : PetRulesRef) (pet : Pet) : RiskRulesRef :=
  (List.lookup pet.get_age_category rules.age_categories).getD ⟨none⟩

/-- Species-loop body of `apply_pet_specific_rules` in the heap model: the
dict assignment `modified_assessment['risk_multipliers'][cid] = m` writes
through the reference `fr` of the freshly built dict. -/
def speciesHeapStep (fr : Addr) (h : Heap) (kv : String × ℚ) : Heap :=
  heapWrite h fr (dictSet ((heapLookup h fr).getD []) kv.1 kv.2)

/-- Age-loop body of `apply_pet_specific_rules` in the heap model. -/
def ageHeapStep (fr : Addr) (h : Heap) (kv : String × ℚ) : Heap :=
  match List.lookup kv.1 ((heapLookup h fr).getD []) with
  | some old => heapWrite h fr (dictSet ((heapLookup h fr).getD []) kv.1 (old * kv.2))
  | none => heapWrite h fr (dictSet ((heapLookup h fr).getD []) kv.1 kv.2)

/-- The factor list a rules entry refers to on the heap (`[]` when absent). -/
def refFactors (h : Heap) (r : RiskRulesRef) : RiskFactors :=
  match r.risk_factors with
  | none => []
  | some a => (heapLookup h a).getD []

/-- `RuleProcessor.apply_pet_specific_rules` in the heap model: allocate the
`modified_assessment['risk_multipliers']` dict at a fresh address, then run
the species and age loops, every write of which targets that address; the
stored rule-table dicts are only read through their references. -/
def apply_pet_specific_rules_heap (heap : Heap) (rules : PetRulesRef)
    (pet : Pet) : Addr × Heap :=
  let fr := freshAddr heap
  let heap0 := heapWrite heap fr []
  let heap1 :=
    (refFactors heap0 (speciesRulesRef rules pet)).foldl (speciesHeapStep fr) heap0
  let heap2 :=
    (refFactors heap1 (ageRulesRef rules pet)).foldl (ageHeapStep fr) heap1
  (fr, heap2)

/-!  Concrete sample data, used by witnesses and counterexamples. -/

/-- Sample condition: one required and one optional symptom. -/
def condCough : Condition :=
  { id := "respiratory_infection", name := "Respiratory Infection",
    category := "respiratory", severity := "moderate",
    required_symptoms := ["cough"], optional_symptoms := ["sneezing"],
    exclusion_symptoms := ["vomiting"], confidence_threshold := 1/2,
    description := "upper airway", emergency_level := "medium" }

/-- Sample condition declaring no required and no optional symptoms. -/
def condEmptyReq : Condition :=
  { id := "vague_malaise", name := "Vague Malaise",
    category := "misc", severity := "low",
    required_symptoms := [], optional_symptoms := [],
    exclusion_symptoms := [], confidence_threshold := 1/2,
    description := "catch-all", emergency_level := "low" }

/-- Sample knowledge base with a dog and senior risk factor on the same id. -/
def kbSample : KnowledgeBase :=
  { symptoms := [], conditions := [condCough, condEmptyReq], treatments := [],
    pet_specific_rules :=
      { species := [("dog", ⟨some [("respiratory_infection", 3/2)]⟩)],
        age_categories := [("senior", ⟨some [("respiratory_infection", 2)]⟩)] } }

/-- Sample senior dog. -/
def petDog : Pet :=
  { name := "Rex", species := "dog", breed := none, age := 8, weight := none,
    gender := "male", medical_history := [], current_medications := [],
    allergies := [], last_vet_visit := none }

/-- Sample non-emergency session. -/
def sessCough : DiagnosisSession :=
  { pet := petDog, reported_symptoms := ["cough"], symptom_details := [],
    timestamp := "2024-01-01T00:00:00", session_id := "s1" }

/-- The same pet and symptoms as `sessCough` under another session identity. -/
def sessCough2 : DiagnosisSession :=
  { pet := petDog, reported_symptoms := ["cough"], symptom_details := [],
    timestamp := "2024-02-02T00:00:00", session_id := "s2" }

/-- Sample emergency session. -/
def sessEmerg : DiagnosisSession :=
  { pet := petDog, reported_symptoms := ["difficulty_breathing"],
    symptom_details := [], timestamp := "2024-01-01T00:00:00", session_id := "s3" }

/-- A data directory whose symptoms file is present but structurally invalid
while the conditions file is present and valid. -/
def dirCex : DataDir :=
  { symptomsSrc := SourceState.invalid "unexpected keyword argument",
    conditionsSrc := SourceState.valid [condCough],
    treatmentsSrc := SourceState.missing,
    rulesSrc := SourceState.missing }

/-- Sample heap holding two rule-table risk-factor dicts. -/
def heapSample : Heap :=
  [(0, [("respiratory_infection", 3/2)]), (1, [("respiratory_infection", 2)])]

/-- Sample by-reference rule table pointing into `heapSample`. -/
def rulesRefSample : PetRulesRef :=
  { species := [("dog", ⟨some 0⟩)], age_categories := [("senior", ⟨some 1⟩)] }

/-!  General helper lemmas. -/

theorem lookup_mem {α β : Type} [BEq α] [LawfulBEq α] {k : α} {v : β}
    {l : List (α × β)} (h : List.lookup k l = some v) : (k, v) ∈ l := by
  induction l with
  | nil => simp at h
  | cons kv rest ih =>
    obtain ⟨k1, v1⟩ := kv
    rw [List.lookup_cons] at h
    cases hb : k == k1 with
    | true =>
      rw [hb] at h
      simp only [Option.some.injEq] at h
      have hk : k = k1 := eq_of_beq hb
      rw [hk, ← h]
      exact List.mem_cons_self _ _
    | false =>
      rw [hb] at h
      exact List.mem_cons_of_mem _ (ih h)

/-!  Lemmas about the emergency scan. -/

theorem emergency_foldl_alerts (l : List String) (alerts : List String) (urg : String) :
    (l.foldl emergencyStep (alerts, urg)).1 =
      alerts ++ (l.filter fun s =>
        (List.lookup s emergency_symptoms_table).isSome).map alert_message := by
  induction l generalizing alerts urg with
  | nil => simp
  | cons s rest ih =>
    simp only [List.foldl_cons, List.filter_cons]
    cases hl : List.lookup s emergency_symptoms_table with
    | none => simp [emergencyStep, hl, ih]
    | some u => simp [emergencyStep, hl, ih]

theorem emergency_table_values (s u : String)
    (h : List.lookup s emergency_symptoms_table = some u) :
    u = "critical" ∨ u = "high" := by
  have hm := lookup_mem h
  simp only [emergency_symptoms_table, List.mem_cons, List.not_mem_nil, or_false,
    Prod.mk.injEq] at hm
  rcases hm with ⟨_, rfl⟩ | ⟨_, rfl⟩ | ⟨_, rfl⟩ | ⟨_, rfl⟩ | ⟨_, rfl⟩ | ⟨_, rfl⟩
    | ⟨_, rfl⟩ | ⟨_, rfl⟩ <;> simp

theorem emergency_foldl_urgency (l : List String) (alerts : List String) (urg : String) :
    ((l.foldl emergencyStep (alerts, urg)).2 = "high" ∨
      (l.foldl emergencyStep (alerts, urg)).2 = "critical") ↔
      ((urg = "high" ∨ urg = "critical") ∨
        ∃ s ∈ l, (List.lookup s emergency_symptoms_table).isSome = true) := by
  induction l generalizing alerts urg with
  | nil => simp
  | cons s rest ih =>
    simp only [List.foldl_cons]
    cases hl : List.lookup s emergency_symptoms_table with
    | none =>
      have hstep : emergencyStep (alerts, urg) s = (alerts, urg) := by
        simp [emergencyStep, hl]
      rw [hstep, ih]
      constructor
      · rintro (h | ⟨t, ht, hsome⟩)
        · exact Or.inl h
        · exact Or.inr ⟨t, List.mem_cons_of_mem _ ht, hsome⟩
      · rintro (h | ⟨t, ht, hsome⟩)
        · exact Or.inl h
        · rcases List.mem_cons.mp ht with rfl | ht2
          · rw [hl] at hsome
            simp at hsome
          · exact Or.inr ⟨t, ht2, hsome⟩
    | some u =>
      have hhit : ∃ t ∈ s :: rest, (List.lookup t emergency_symptoms_table).isSome = true :=
        ⟨s, List.mem_cons_self _ _, by simp [hl]⟩
      have hnew : (emergencyStep (alerts, urg) s).2 = "high" ∨
          (emergencyStep (alerts, urg) s).2 = "critical" := by
        rcases emergency_table_values s u hl with rfl | rfl
        · simp [emergencyStep, hl]
        · by_cases hc : urg = "critical"
          · right
            simp [emergencyStep, hl, hc]
          · left
            simp [emergencyStep, hl, hc]
      rw [ih]
      exact iff_of_true (Or.inl hnew) (Or.inr hhit)

/-- C1: `get_conditions_for_symptoms` returns a catalog condition exactly when
every required symptom id is among the reported ones and no exclusion symptom
id is; a condition with an empty required list (and no reported exclusion) is
returned for any reported collection, the empty one included. -/
theorem get_conditions_for_symptoms_iff (kb : KnowledgeBase) (S : List String)
    (C : Condition) :
    C ∈ get_conditions_for_symptoms kb S ↔
      C ∈ kb.conditions ∧ (∀ r ∈ C.required_symptoms, r ∈ S) ∧
        ∀ e ∈ C.exclusion_symptoms, e ∉ S := by
  simp [get_conditions_for_symptoms, List.mem_filter, and_assoc]

/-- C2 counterexample: a condition declaring no required and no optional
symptoms is one for which every required and optional symptom is vacuously
reported, yet `calculate_confidence` returns 0, not 1. -/
theorem calculate_confidence_empty_counterexample :
    (∀ x ∈ condEmptyReq.required_symptoms, x ∈ ([] : List String)) ∧
    (∀ x ∈ condEmptyReq.optional_symptoms, x ∈ ([] : List String)) ∧
    calculate_confidence condEmptyReq [] ≠ 1 := by
  refine ⟨?_, ?_, ?_⟩ <;> decide

/-- C2 (amended): `calculate_confidence` equals the weighted score
`(2·req-matches + opt-matches) / (2·|required| + |optional|)` clamped at 1
whenever the condition declares at least one required or optional symptom,
returns exactly 0 when it declares none, always lies in `[0, 1]`, and equals
exactly 1 when the reported symptoms cover all required and optional symptoms
of a condition declaring at least one. -/
theorem calculate_confidence_formula (C : Condition) (S : List String) :
    0 ≤ calculate_confidence C S ∧ calculate_confidence C S ≤ 1 ∧
    (C.required_symptoms.length + C.optional_symptoms.length = 0 →
      calculate_confidence C S = 0) ∧
    (C.required_symptoms.length + C.optional_symptoms.length ≠ 0 →
      calculate_confidence C S =
        min ((2 * ((C.required_symptoms.filter fun s => decide (s ∈ S)).length : ℚ) +
              ((C.optional_symptoms.filter fun s => decide (s ∈ S)).length : ℚ)) /
             (2 * (C.required_symptoms.length : ℚ) + (C.optional_symptoms.length : ℚ))) 1) ∧
    (C.required_symptoms.length + C.optional_symptoms.length ≠ 0 →
      (∀ x ∈ C.required_symptoms, x ∈ S) → (∀ x ∈ C.optional_symptoms, x ∈ S) →
      calculate_confidence C S = 1) := by
  by_cases h : C.required_symptoms.length + C.optional_symptoms.length = 0
  · refine ⟨?_, ?_, fun _ => ?_, fun hc => absurd h hc, fun hc => absurd h hc⟩ <;>
      simp [calculate_confidence, h]
  · have h1 : 0 < C.required_symptoms.length + C.optional_symptoms.length :=
      Nat.pos_of_ne_zero h
    have hden : (0 : ℚ) < 2 * (C.required_symptoms.length : ℚ) +
        (C.optional_symptoms.length : ℚ) := by
      have h1Q : (0 : ℚ) < (C.required_symptoms.length : ℚ) +
          (C.optional_symptoms.length : ℚ) := by exact_mod_cast h1
      have hr : (0 : ℚ) ≤ (C.required_symptoms.length : ℚ) := Nat.cast_nonneg _
      linarith
    have hval : calculate_confidence C S =
        min ((2 * ((C.required_symptoms.filter fun s => decide (s ∈ S)).length : ℚ) +
              ((C.optional_symptoms.filter fun s => decide (s ∈ S)).length : ℚ)) /
             (2 * (C.required_symptoms.length : ℚ) + (C.optional_symptoms.length : ℚ))) 1 := by
      simp [calculate_confidence, h]
    have hnum : (0 : ℚ) ≤
        2 * ((C.required_symptoms.filter fun s => decide (s ∈ S)).length : ℚ) +
          ((C.optional_symptoms.filter fun s => decide (s ∈ S)).length : ℚ) := by
      positivity
    refine ⟨?_, ?_, fun hc => absurd hc h, fun _ => hval, fun _ hreq hopt => ?_⟩
    · rw [hval]
      exact le_min (div_nonneg hnum hden.le) zero_le_one
    · rw [hval]
      exact min_le_right _ _
    · have hfr : C.required_symptoms.filter (fun s => decide (s ∈ S)) =
          C.required_symptoms := List.filter_eq_self.mpr (by
        intro a ha
        simpa using hreq a ha)
      have hfo : C.optional_symptoms.filter (fun s => decide (s ∈ S)) =
          C.optional_symptoms := List.filter_eq_self.mpr (by
        intro a ha
        simpa using hopt a ha)
      rw [hval, hfr, hfo, div_self (ne_of_gt hden), min_self]

/-- C2 witness: for a condition with one required and one optional symptom and
full symptom coverage, the formula clause and the exactly-1 clause of the
amended statement evaluate as stated. -/
theorem calculate_confidence_formula_witness :
    calculate_confidence condCough ["cough", "sneezing"] = 1 :=
  (calculate_confidence_formula condCough ["cough", "sneezing"]).2.2.2.2
    (by decide) (by decide) (by decide)

theorem check_emergency_alerts_eq (symptoms : List String) (pet : Pet) :
    (check_emergency_conditions symptoms pet).2 =
      (symptoms.filter fun s =>
        (List.lookup s emergency_symptoms_table).isSome).map alert_message := by
  simpa [check_emergency_conditions] using emergency_foldl_alerts symptoms [] "low"

theorem check_emergency_flag_iff (symptoms : List String) (pet : Pet) :
    (check_emergency_conditions symptoms pet).1 = true ↔
      ∃ s ∈ symptoms, (List.lookup s emergency_symptoms_table).isSome = true := by
  simp only [check_emergency_conditions, decide_eq_true_eq]
  rw [emergency_foldl_urgency symptoms [] "low"]
  simp

theorem emergency_alerts_ne_iff (symptoms : List String) :
    (symptoms.filter fun s =>
      (List.lookup s emergency_symptoms_table).isSome).map alert_message ≠ [] ↔
      ∃ s ∈ symptoms, (List.lookup s emergency_symptoms_table).isSome = true := by
  rw [ne_eq, List.map_eq_nil_iff, List.filter_eq_nil_iff]
  push_neg
  exact Iff.rfl

/-- C10: the emergency flag of `check_emergency_conditions` is true exactly
when its alert list is non-empty, which happens exactly when some reported
symptom sits in the fixed emergency table; one alert is emitted per occurrence
of such a symptom, in reported-list order. -/
theorem check_emergency_conditions_spec (symptoms : List String) (pet : Pet) :
    ((check_emergency_conditions symptoms pet).1 = true ↔
      (check_emergency_conditions symptoms pet).2 ≠ []) ∧
    ((check_emergency_conditions symptoms pet).1 = true ↔
      ∃ s ∈ symptoms, (List.lookup s emergency_symptoms_table).isSome = true) ∧
    (check_emergency_conditions symptoms pet).2 =
      (symptoms.filter fun s =>
        (List.lookup s emergency_symptoms_table).isSome).map alert_message := by
  refine ⟨?_, check_emergency_flag_iff symptoms pet, check_emergency_alerts_eq symptoms pet⟩
  rw [check_emergency_flag_iff symptoms pet, check_emergency_alerts_eq symptoms pet]
  exact (emergency_alerts_ne_iff symptoms).symm

/-- C3: when a reported symptom sits in the fixed emergency table, `diagnose`
short-circuits with an emergency result carrying confidence 1, at least one
alert and an empty conditions list, and the result does not depend on the
knowledge base at all (no retrieval, rule, scoring or ranking stage can
influence it). -/
theorem diagnose_emergency_short_circuit (kb : KnowledgeBase)
    (session : DiagnosisSession)
    (h : ∃ s ∈ session.reported_symptoms,
      (List.lookup s emergency_symptoms_table).isSome = true) :
    (diagnose kb session).emergency = true ∧
    (diagnose kb session).confidence = some 1 ∧
    (diagnose kb session).conditions = [] ∧
    (∃ alerts, (diagnose kb session).alerts = some alerts ∧ alerts ≠ []) ∧
    ∀ kb2 : KnowledgeBase, diagnose kb2 session = diagnose kb session := by
  have hflag : (check_emergency_conditions session.reported_symptoms session.pet).1 = true :=
    (check_emergency_flag_iff _ _).mpr h
  have hne : (check_emergency_conditions session.reported_symptoms session.pet).2 ≠ [] := by
    rw [check_emergency_alerts_eq]
    exact (emergency_alerts_ne_iff _).mpr h
  refine ⟨?_, ?_, ?_, ⟨(check_emergency_conditions session.reported_symptoms session.pet).2,
    ?_, hne⟩, fun kb2 => ?_⟩ <;> simp [diagnose, hflag]

/-- C6: `apply_exclusion_rules` removes a condition exactly when one of the
four age or species id-marker rules fires, and keeps all the others in their
original order. -/
theorem apply_exclusion_rules_spec (conditions : List Condition)
    (symptoms : List String) (pet : Pet) :
    apply_exclusion_rules conditions symptoms pet =
      conditions.filter fun c => decide (¬(
        (pet.age < 1 ∧ strContains c.id "adult_only" = true) ∨
        (pet.age > 10 ∧ strContains c.id "young_only" = true) ∨
        (strContains c.id "feline_only" = true ∧
          pyLower pet.species ∈ ["dog", "bird", "rabbit"]) ∨
        (strContains c.id "canine_only" = true ∧
          pyLower pet.species ∈ ["cat", "bird", "rabbit"]))) := by
  unfold apply_exclusion_rules
  apply List.filter_congr
  intro c _
  by_cases h1 : pet.age < 1 <;> by_cases h2 : pet.age > 10 <;>
    cases h3 : strContains c.id "adult_only" <;>
    cases h4 : strContains c.id "young_only" <;>
    cases h5 : strContains c.id "feline_only" <;>
    cases h6 : strContains c.id "canine_only" <;>
    by_cases h7 : pyLower pet.species ∈ ["dog", "bird", "rabbit"] <;>
    by_cases h8 : pyLower pet.species ∈ ["cat", "bird", "rabbit"] <;>
    simp [h1, h2, h3, h4, h5, h6, h7, h8]

/-!  Lemmas about dict assignment and the risk-factor merge. -/

theorem lookup_none_of_not_mem_keys {α β : Type} [BEq α] [LawfulBEq α] {k : α}
    {l : List (α × β)} (h : k ∉ l.map Prod.fst) : List.lookup k l = none := by
  induction l with
  | nil => rfl
  | cons kv rest ih =>
    obtain ⟨k1, v1⟩ := kv
    simp only [List.map_cons, List.mem_cons, not_or] at h
    have hb : (k == k1) = false := beq_eq_false_iff_ne.mpr h.1
    rw [List.lookup_cons, hb]
    exact ih h.2

theorem dictSet_lookup_self (m : RiskFactors) (k : String) (v : ℚ) :
    List.lookup k (dictSet m k v) = some v := by
  induction m with
  | nil => simp [dictSet, List.lookup_cons]
  | cons kv rest ih =>
    obtain ⟨k1, v1⟩ := kv
    by_cases h : k1 = k
    · subst h
      simp [dictSet, List.lookup_cons]
    · have hb : (k == k1) = false := beq_eq_false_iff_ne.mpr (Ne.symm h)
      simp only [dictSet, if_neg h]
      rw [List.lookup_cons, hb]
      exact ih

theorem dictSet_lookup_other (m : RiskFactors) (k k2 : String) (v : ℚ)
    (h : k2 ≠ k) : List.lookup k2 (dictSet m k v) = List.lookup k2 m := by
  induction m with
  | nil =>
    have hb : (k2 == k) = false := beq_eq_false_iff_ne.mpr h
    simp [dictSet, List.lookup_cons, hb]
  | cons kv rest ih =>
    obtain ⟨k1, v1⟩ := kv
    by_cases h1 : k1 = k
    · subst h1
      have hb : (k2 == k1) = false := beq_eq_false_iff_ne.mpr h
      have hd : dictSet ((k1, v1) :: rest) k1 v = (k1, v) :: rest := by
        simp [dictSet]
      rw [hd, List.lookup_cons, hb, List.lookup_cons, hb]
    · simp only [dictSet, if_neg h1]
      rw [List.lookup_cons, List.lookup_cons]
      cases hb : k2 == k1 with
      | true => rfl
      | false => exact ih

theorem dictSet_of_lookup_none (m : RiskFactors) (k : String) (v : ℚ)
    (h : List.lookup k m = none) : dictSet m k v = m ++ [(k, v)] := by
  induction m with
  | nil => rfl
  | cons kv rest ih =>
    obtain ⟨k1, v1⟩ := kv
    rw [List.lookup_cons] at h
    cases hb : k == k1 with
    | true =>
      rw [hb] at h
      simp at h
    | false =>
      rw [hb] at h
      have hne : k1 ≠ k := fun he => by simp [he] at hb
      simp only [dictSet, if_neg hne, List.cons_append, List.cons.injEq, true_and]
      exact ih h

theorem foldl_dictCopy_eq (l : List (String × ℚ)) (m : RiskFactors)
    (hdis : ∀ k ∈ l.map Prod.fst, List.lookup k m = none)
    (hnd : (l.map Prod.fst).Nodup) :
    l.foldl dictCopyStep m = m ++ l := by
  induction l generalizing m with
  | nil => simp
  | cons kv rest ih =>
    obtain ⟨k, v⟩ := kv
    simp only [List.map_cons, List.nodup_cons] at hnd
    simp only [List.foldl_cons]
    have h1 : List.lookup k m = none := hdis k (by simp)
    have hstep : dictCopyStep m (k, v) = m ++ [(k, v)] :=
      dictSet_of_lookup_none m k v h1
    rw [hstep, ih (m ++ [(k, v)]) ?hdis2 hnd.2]
    · simp
    case hdis2 =>
      intro k2 hk2
      have hne : k2 ≠ k := fun he => hnd.1 (he ▸ hk2)
      rw [List.lookup_append, hdis k2 (by simp [hk2]),
        lookup_none_of_not_mem_keys (by simpa using hne)]
      rfl

theorem foldl_ageMerge_lookup (l : List (String × ℚ)) (m : RiskFactors)
    (cid : String) (hnd : (l.map Prod.fst).Nodup) :
    List.lookup cid (l.foldl ageMergeStep m) =
      match List.lookup cid m, List.lookup cid l with
      | some a, some b => some (a * b)
      | some a, none => some a
      | none, some b => some b
      | none, none => none := by
  induction l generalizing m with
  | nil =>
    cases hm : List.lookup cid m <;> simp [hm]
  | cons kv rest ih =>
    obtain ⟨k, v⟩ := kv
    simp only [List.map_cons, List.nodup_cons] at hnd
    simp only [List.foldl_cons]
    by_cases hck : cid = k
    · subst hck
      have hrest : List.lookup cid rest = none :=
        lookup_none_of_not_mem_keys hnd.1
      have hhead : List.lookup cid ((cid, v) :: rest) = some v := by
        rw [List.lookup_cons]
        simp
      rw [ih _ hnd.2, hhead]
      cases hm : List.lookup cid m with
      | some old =>
        have hstep : ageMergeStep m (cid, v) = dictSet m cid (old * v) := by
          simp [ageMergeStep, hm]
        rw [hstep, dictSet_lookup_self, hrest]
      | none =>
        have hstep : ageMergeStep m (cid, v) = dictSet m cid v := by
          simp [ageMergeStep, hm]
        rw [hstep, dictSet_lookup_self, hrest]
    · have hb : (cid == k) = false := beq_eq_false_iff_ne.mpr hck
      have hstep : List.lookup cid (ageMergeStep m (k, v)) = List.lookup cid m := by
        unfold ageMergeStep
        cases List.lookup k m <;> exact dictSet_lookup_other _ _ _ _ hck
      have hhead : List.lookup cid ((k, v) :: rest) = List.lookup cid rest := by
        rw [List.lookup_cons, hb]
      rw [ih _ hnd.2, hstep, hhead]

theorem apply_pet_specific_rules_rm (kb : KnowledgeBase) (pet : Pet)
    (symptoms : List String) :
    (apply_pet_specific_rules kb pet symptoms).risk_multipliers =
      (ageFactors kb pet).foldl ageMergeStep
        ((speciesFactors kb pet).foldl dictCopyStep []) := rfl

/-- C5: the merged risk-multiplier map assigns the product of the species and
age factors to an id present in both maps, the single factor to an id present
in exactly one, and the scoring stage falls back to multiplier 1 for an id
absent from the merged map. -/
theorem apply_pet_specific_rules_multipliers (kb : KnowledgeBase) (pet : Pet)
    (symptoms : List String) (cid : String)
    (hs : ((speciesFactors kb pet).map Prod.fst).Nodup)
    (ha : ((ageFactors kb pet).map Prod.fst).Nodup) :
    (List.lookup cid (apply_pet_specific_rules kb pet symptoms).risk_multipliers =
      match List.lookup cid (speciesFactors kb pet),
          List.lookup cid (ageFactors kb pet) with
      | some a, some b => some (a * b)
      | some a, none => some a
      | none, some b => some b
      | none, none => none) ∧
    (List.lookup cid (apply_pet_specific_rules kb pet symptoms).risk_multipliers = none →
      ∀ c : Condition, c.id = cid →
        (score_conditions kb [c] (apply_pet_specific_rules kb pet symptoms)
          symptoms).map ScoreRecord.risk_multiplier = [1]) := by
  have hcopy : (speciesFactors kb pet).foldl dictCopyStep [] = speciesFactors kb pet := by
    simpa using foldl_dictCopy_eq (speciesFactors kb pet) [] (fun k _ => rfl) hs
  constructor
  · rw [apply_pet_specific_rules_rm, hcopy]
    exact foldl_ageMerge_lookup (ageFactors kb pet) (speciesFactors kb pet) cid ha
  · intro hnone c hcid
    simp [score_conditions, hcid, hnone]

/-- C5 witness: species factor 3/2 and age factor 2 on the same condition id
combine into multiplier 3 for the sample knowledge base and senior dog. -/
theorem apply_pet_specific_rules_multipliers_witness :
    List.lookup "respiratory_infection"
      (apply_pet_specific_rules kbSample petDog []).risk_multipliers = some 3 := by
  have hs : ((speciesFactors kbSample petDog).map Prod.fst).Nodup := by
    rw [show (speciesFactors kbSample petDog).map Prod.fst =
      ["respiratory_infection"] from by decide]
    simp
  have ha : ((ageFactors kbSample petDog).map Prod.fst).Nodup := by
    rw [show (ageFactors kbSample petDog).map Prod.fst =
      ["respiratory_infection"] from by decide]
    simp
  rw [(apply_pet_specific_rules_multipliers kbSample petDog []
    "respiratory_infection" hs ha).1]
  decide

/-!  Lemmas about the stable descending sort of the ranking stage. -/

theorem mem_insertDesc (x z : ScoreRecord) (l : List ScoreRecord) :
    z ∈ insertDesc x l ↔ z = x ∨ z ∈ l := by
  induction l with
  | nil => simp [insertDesc]
  | cons y ys ih =>
    by_cases h : x.confidence < y.confidence <;>
      simp [insertDesc, h, ih] <;> tauto

theorem insertDesc_sorted (x : ScoreRecord) (l : List ScoreRecord)
    (hl : List.Pairwise (fun a b => b.confidence ≤ a.confidence) l) :
    List.Pairwise (fun a b => b.confidence ≤ a.confidence) (insertDesc x l) := by
  induction l with
  | nil => simp [insertDesc]
  | cons y ys ih =>
    obtain ⟨hy, hys⟩ := List.pairwise_cons.mp hl
    by_cases h : x.confidence < y.confidence
    · simp only [insertDesc, if_pos h]
      rw [List.pairwise_cons]
      refine ⟨fun z hz => ?_, ih hys⟩
      rcases (mem_insertDesc x z ys).mp hz with rfl | hz2
      · exact le_of_lt h
      · exact hy z hz2
    · simp only [insertDesc, if_neg h]
      rw [List.pairwise_cons]
      refine ⟨fun z hz => ?_, hl⟩
      rcases List.mem_cons.mp hz with rfl | hz2
      · exact not_lt.mp h
      · exact le_trans (hy z hz2) (not_lt.mp h)

theorem sortDesc_sorted (l : List ScoreRecord) :
    List.Pairwise (fun a b => b.confidence ≤ a.confidence) (sortDesc l) := by
  induction l with
  | nil => simp [sortDesc]
  | cons x xs ih => exact insertDesc_sorted x (sortDesc xs) ih

theorem insertDesc_of_head_le (x : ScoreRecord) (l : List ScoreRecord)
    (h : ∀ z ∈ l, ¬ x.confidence < z.confidence) : insertDesc x l = x :: l := by
  cases l with
  | nil => rfl
  | cons y ys => simp [insertDesc, h y (List.mem_cons_self _ _)]

theorem filter_insertDesc (p : ScoreRecord → Bool) (x : ScoreRecord)
    (l : List ScoreRecord)
    (hl : List.Pairwise (fun a b => b.confidence ≤ a.confidence) l) :
    (insertDesc x l).filter p =
      if p x then insertDesc x (l.filter p) else l.filter p := by
  induction l with
  | nil => cases hp : p x <;> simp [insertDesc, hp]
  | cons y ys ih =>
    obtain ⟨hy, hys⟩ := List.pairwise_cons.mp hl
    by_cases h : x.confidence < y.confidence
    · have h1 : insertDesc x (y :: ys) = y :: insertDesc x ys := by
        simp [insertDesc, h]
      rw [h1]
      cases hp : p y
      · have h2 : List.filter p (y :: insertDesc x ys) =
            List.filter p (insertDesc x ys) := by simp [List.filter_cons, hp]
        have h3 : List.filter p (y :: ys) = List.filter p ys := by
          simp [List.filter_cons, hp]
        rw [h2, h3, ih hys]
      · have h2 : List.filter p (y :: insertDesc x ys) =
            y :: List.filter p (insertDesc x ys) := by simp [List.filter_cons, hp]
        have h3 : List.filter p (y :: ys) = y :: List.filter p ys := by
          simp [List.filter_cons, hp]
        rw [h2, h3, ih hys]
        cases hpx : p x
        · simp
        · have h4 : insertDesc x (y :: List.filter p ys) =
              y :: insertDesc x (List.filter p ys) := by simp [insertDesc, h]
          simp [h4]
    · have h1 : insertDesc x (y :: ys) = x :: y :: ys := by
        simp [insertDesc, h]
      rw [h1]
      cases hpx : p x
      · simp [List.filter_cons, hpx]
      · have h2 : List.filter p (x :: y :: ys) =
            x :: List.filter p (y :: ys) := by simp [List.filter_cons, hpx]
        rw [h2, insertDesc_of_head_le x (List.filter p (y :: ys)) ?hall]
        · simp [hpx]
        case hall =>
          intro z hz
          obtain ⟨hzm, _⟩ := List.mem_filter.mp hz
          rcases List.mem_cons.mp hzm with rfl | hz2
          · exact h
          · exact fun hlt => h (lt_of_lt_of_le hlt (hy z hz2))

theorem filter_sortDesc (p : ScoreRecord → Bool) (l : List ScoreRecord) :
    (sortDesc l).filter p = sortDesc (l.filter p) := by
  induction l with
  | nil => simp [sortDesc]
  | cons x xs ih =>
    simp only [sortDesc, List.filter_cons]
    rw [filter_insertDesc p x (sortDesc xs) (sortDesc_sorted xs), ih]
    cases hp : p x <;> simp [sortDesc]

/-- C4: in a non-emergency diagnosis, the returned conditions are exactly the
score records meeting their own threshold (inclusive boundary), in stable
descending-confidence order relative to the post-exclusion scoring order,
truncated to the first 3. -/
theorem diagnose_ranking_spec (kb : KnowledgeBase) (session : DiagnosisSession)
    (h : (check_emergency_conditions session.reported_symptoms session.pet).1 = false) :
    (diagnose kb session).conditions =
      (sortDesc ((score_conditions kb
        (apply_exclusion_rules
          (get_conditions_for_symptoms kb session.reported_symptoms)
          session.reported_symptoms session.pet)
        (apply_pet_specific_rules kb session.pet session.reported_symptoms)
        session.reported_symptoms).filter fun r =>
          decide (r.condition.confidence_threshold ≤ r.confidence))).take 3 ∧
    List.Pairwise (fun a b => b.confidence ≤ a.confidence)
      (diagnose kb session).conditions := by
  have hcond : (diagnose kb session).conditions =
      ((sortDesc (score_conditions kb
        (apply_exclusion_rules
          (get_conditions_for_symptoms kb session.reported_symptoms)
          session.reported_symptoms session.pet)
        (apply_pet_specific_rules kb session.pet session.reported_symptoms)
        session.reported_symptoms)).filter fun r =>
          decide (r.condition.confidence_threshold ≤ r.confidence)).take 3 := by
    simp [diagnose, h]
  constructor
  · rw [hcond, filter_sortDesc]
  · rw [hcond]
    exact List.Pairwise.sublist (List.take_sublist _ _)
      ((sortDesc_sorted _).filter _)

/-- C8: two diagnoses over the same knowledge base, pet and reported symptoms
agree on every output component except the session id and the timestamp; the
pipeline is a deterministic function of (knowledge base, pet, symptom set). -/
theorem diagnose_deterministic (kb : KnowledgeBase) (s1 s2 : DiagnosisSession)
    (hp : s1.pet = s2.pet) (hs : s1.reported_symptoms = s2.reported_symptoms) :
    (diagnose kb s1).emergency = (diagnose kb s2).emergency ∧
    (diagnose kb s1).conditions = (diagnose kb s2).conditions ∧
    (diagnose kb s1).recommendations = (diagnose kb s2).recommendations ∧
    (diagnose kb s1).pet_specific_notes = (diagnose kb s2).pet_specific_notes ∧
    (diagnose kb s1).follow_up_questions = (diagnose kb s2).follow_up_questions ∧
    (diagnose kb s1).alerts = (diagnose kb s2).alerts ∧
    (diagnose kb s1).recommendation = (diagnose kb s2).recommendation ∧
    (diagnose kb s1).confidence = (diagnose kb s2).confidence ∧
    explain_reasoning (diagnose kb s1) = explain_reasoning (diagnose kb s2) := by
  simp only [diagnose, hp, hs]
  by_cases hc : (check_emergency_conditions s2.reported_symptoms s2.pet).1 <;>
    simp [hc, explain_reasoning]

/-- C7 counterexample: with an invalid symptoms source and a valid non-empty
conditions source, loading reports the error but leaves the conditions
catalog empty, so the other present, valid source is not loaded. -/
theorem load_knowledge_counterexample :
    dirCex.conditionsSrc = SourceState.valid [condCough] ∧
    (load_knowledge dirCex).2.isSome = true ∧
    (load_knowledge dirCex).1.conditions = [] ∧
    [condCough] ≠ ([] : List Condition) := by
  refine ⟨rfl, rfl, rfl, ?_⟩
  decide

/-- C7 (amended): a missing source leaves its catalog empty without failing
startup; an invalid source has its error caught and reported, and aborts the
rest of the load: catalogs of sources ordered before the first invalid source
are loaded, all later ones stay empty (load order: symptoms, conditions,
treatments, rules). -/
theorem load_knowledge_per_source (dir : DataDir) :
    ((load_knowledge dir).2 = none ↔
      (dir.symptomsSrc.isOk && dir.conditionsSrc.isOk &&
        dir.treatmentsSrc.isOk && dir.rulesSrc.isOk) = true) ∧
    (load_knowledge dir).1.symptoms =
      (if dir.symptomsSrc.isOk then sourcePayload [] dir.symptomsSrc else []) ∧
    (load_knowledge dir).1.conditions =
      (if dir.symptomsSrc.isOk && dir.conditionsSrc.isOk then
        sourcePayload [] dir.conditionsSrc else []) ∧
    (load_knowledge dir).1.treatments =
      (if dir.symptomsSrc.isOk && dir.conditionsSrc.isOk && dir.treatmentsSrc.isOk then
        sourcePayload [] dir.treatmentsSrc else []) ∧
    (load_knowledge dir).1.pet_specific_rules =
      (if dir.symptomsSrc.isOk && dir.conditionsSrc.isOk &&
          dir.treatmentsSrc.isOk && dir.rulesSrc.isOk then
        sourcePayload emptyPetRules dir.rulesSrc else emptyPetRules) := by
  obtain ⟨s, c, t, r⟩ := dir
  cases s <;> cases c <;> cases t <;> cases r <;>
    simp [load_knowledge, load_symptoms, load_conditions, load_treatments,
      load_pet_rules, SourceState.isOk, sourcePayload]

/-!  Lemmas about the heap model. -/

theorem heapWrite_lookup_self (h : Heap) (a : Addr) (d : RiskFactors) :
    heapLookup (heapWrite h a d) a = some d := by
  induction h with
  | nil => simp [heapWrite, heapLookup, List.lookup_cons]
  | cons kv rest ih =>
    obtain ⟨a1, d1⟩ := kv
    by_cases h1 : a1 = a
    · subst h1
      simp [heapWrite, heapLookup, List.lookup_cons]
    · have hb : (a == a1) = false := beq_eq_false_iff_ne.mpr (Ne.symm h1)
      simp only [heapWrite, if_neg h1, heapLookup] at ih ⊢
      rw [List.lookup_cons, hb]
      exact ih

theorem heapWrite_lookup_other (h : Heap) (a a2 : Addr) (d : RiskFactors)
    (hne : a2 ≠ a) : heapLookup (heapWrite h a d) a2 = heapLookup h a2 := by
  induction h with
  | nil =>
    have hb : (a2 == a) = false := beq_eq_false_iff_ne.mpr hne
    simp [heapWrite, heapLookup, List.lookup_cons, hb]
  | cons kv rest ih =>
    obtain ⟨a1, d1⟩ := kv
    by_cases h1 : a1 = a
    · subst h1
      have hb : (a2 == a1) = false := beq_eq_false_iff_ne.mpr hne
      have hd : heapWrite ((a1, d1) :: rest) a1 d = (a1, d) :: rest := by
        simp [heapWrite]
      rw [hd]
      simp only [heapLookup]
      rw [List.lookup_cons, hb, List.lookup_cons, hb]
    · simp only [heapWrite, if_neg h1, heapLookup] at ih ⊢
      rw [List.lookup_cons, List.lookup_cons]
      cases hb : a2 == a1 with
      | true => rfl
      | false => exact ih

theorem foldl_speciesHeap_other (l : List (String × ℚ)) (fr : Addr) (h : Heap)
    (a : Addr) (hne : a ≠ fr) :
    heapLookup (l.foldl (speciesHeapStep fr) h) a = heapLookup h a := by
  induction l generalizing h with
  | nil => rfl
  | cons kv rest ih =>
    simp only [List.foldl_cons]
    rw [ih (speciesHeapStep fr h kv)]
    unfold speciesHeapStep
    exact heapWrite_lookup_other _ _ _ _ hne

theorem foldl_ageHeap_other (l : List (String × ℚ)) (fr : Addr) (h : Heap)
    (a : Addr) (hne : a ≠ fr) :
    heapLookup (l.foldl (ageHeapStep fr) h) a = heapLookup h a := by
  induction l generalizing h with
  | nil => rfl
  | cons kv rest ih =>
    simp only [List.foldl_cons]
    rw [ih (ageHeapStep fr h kv)]
    cases hm : List.lookup kv.1 ((heapLookup h fr).getD []) <;>
      simp only [ageHeapStep, hm] <;>
      exact heapWrite_lookup_other _ _ _ _ hne

theorem foldl_speciesHeap_self (l : List (String × ℚ)) (fr : Addr) (h : Heap)
    (m : RiskFactors) (hm : heapLookup h fr = some m) :
    heapLookup (l.foldl (speciesHeapStep fr) h) fr =
      some (l.foldl dictCopyStep m) := by
  induction l generalizing h m with
  | nil => simpa using hm
  | cons kv rest ih =>
    simp only [List.foldl_cons]
    apply ih
    unfold speciesHeapStep
    rw [hm]
    simpa [dictCopyStep] using heapWrite_lookup_self h fr _

theorem foldl_ageHeap_self (l : List (String × ℚ)) (fr : Addr) (h : Heap)
    (m : RiskFactors) (hm : heapLookup h fr = some m) :
    heapLookup (l.foldl (ageHeapStep fr) h) fr =
      some (l.foldl ageMergeStep m) := by
  induction l generalizing h m with
  | nil => simpa using hm
  | cons kv rest ih =>
    simp only [List.foldl_cons]
    apply ih
    have hcur : (heapLookup h fr).getD [] = m := by
      rw [hm]
      rfl
    cases hm2 : List.lookup kv.1 m <;>
      simp only [ageHeapStep, ageMergeStep, hcur, hm2] <;>
      exact heapWrite_lookup_self h fr _

theorem mem_le_foldr_max (a : ℕ) (l : List ℕ) (h : a ∈ l) :
    a ≤ l.foldr max 0 := by
  induction l with
  | nil => simp at h
  | cons b rest ih =>
    rcases List.mem_cons.mp h with rfl | h2
    · exact le_max_left _ _
    · exact le_trans (ih h2) (le_max_right _ _)

theorem freshAddr_not_mem (h : Heap) (a : Addr) (ha : a ∈ h.map Prod.fst) :
    a ≠ freshAddr h := by
  intro he
  have hle := mem_le_foldr_max a (h.map Prod.fst) ha
  have he2 : a = (h.map Prod.fst).foldr max 0 + 1 := he
  rw [he2] at hle
  omega

/-- C9: the risk-multiplier merge allocates a fresh dict and writes only to
it: every dict object present in the heap before the call, the stored rule
table's `risk_factors` dicts included, is unchanged afterwards; the fresh
dict ends up holding exactly the species/age merge of the dereferenced
factor dicts. -/
theorem apply_pet_specific_rules_heap_frame (heap : Heap) (rules : PetRulesRef)
    (pet : Pet)
    (hsp : ∀ a, (speciesRulesRef rules pet).risk_factors = some a →
      a ∈ heap.map Prod.fst)
    (hag : ∀ a, (ageRulesRef rules pet).risk_factors = some a →
      a ∈ heap.map Prod.fst) :
    (∀ a ∈ heap.map Prod.fst,
      heapLookup (apply_pet_specific_rules_heap heap rules pet).2 a =
        heapLookup heap a) ∧
    heapLookup (apply_pet_specific_rules_heap heap rules pet).2
        (apply_pet_specific_rules_heap heap rules pet).1 =
      some ((refFactors heap (ageRulesRef rules pet)).foldl ageMergeStep
        ((refFactors heap (speciesRulesRef rules pet)).foldl dictCopyStep [])) := by
  simp only [apply_pet_specific_rules_heap]
  have hsp0 : refFactors (heapWrite heap (freshAddr heap) [])
      (speciesRulesRef rules pet) = refFactors heap (speciesRulesRef rules pet) := by
    cases hrf : (speciesRulesRef rules pet).risk_factors with
    | none => simp [refFactors, hrf]
    | some a =>
      simp only [refFactors, hrf]
      rw [heapWrite_lookup_other heap (freshAddr heap) a []
        (freshAddr_not_mem heap a (hsp a hrf))]
  have hag1 : refFactors ((refFactors (heapWrite heap (freshAddr heap) [])
        (speciesRulesRef rules pet)).foldl (speciesHeapStep (freshAddr heap))
        (heapWrite heap (freshAddr heap) []))
      (ageRulesRef rules pet) = refFactors heap (ageRulesRef rules pet) := by
    cases hrf : (ageRulesRef rules pet).risk_factors with
    | none => simp [refFactors, hrf]
    | some a =>
      have hane : a ≠ freshAddr heap := freshAddr_not_mem heap a (hag a hrf)
      simp only [refFactors, hrf]
      rw [foldl_speciesHeap_other _ _ _ _ hane,
        heapWrite_lookup_other heap (freshAddr heap) a [] hane]
  constructor
  · intro a ha
    have hane : a ≠ freshAddr heap := freshAddr_not_mem heap a ha
    rw [foldl_ageHeap_other _ _ _ _ hane, foldl_speciesHeap_other _ _ _ _ hane,
      heapWrite_lookup_other heap (freshAddr heap) a [] hane]
  · rw [hag1]
    apply foldl_ageHeap_self
    rw [hsp0]
    apply foldl_speciesHeap_self
    exact heapWrite_lookup_self heap (freshAddr heap) []

/-- C9 witness: on a concrete heap holding the two rule-table dicts, the
merge leaves both of them unchanged and builds the combined multipliers in
the fresh dict. -/
theorem apply_pet_specific_rules_heap_frame_witness :
    (heapLookup (apply_pet_specific_rules_heap heapSample rulesRefSample petDog).2 0 =
        heapLookup heapSample 0 ∧
      heapLookup (apply_pet_specific_rules_heap heapSample rulesRefSample petDog).2 1 =
        heapLookup heapSample 1) ∧
    heapLookup (apply_pet_specific_rules_heap heapSample rulesRefSample petDog).2
        (apply_pet_specific_rules_heap heapSample rulesRefSample petDog).1 =
      some [("respiratory_infection", 3)] := by
  have hspv : (speciesRulesRef rulesRefSample petDog).risk_factors = some 0 := by
    decide
  have hagv : (ageRulesRef rulesRefSample petDog).risk_factors = some 1 := by
    decide
  have h := apply_pet_specific_rules_heap_frame heapSample rulesRefSample petDog
    (fun a ha => by
      rw [hspv] at ha
      injection ha with h0
      rw [← h0]
      decide)
    (fun a ha => by
      rw [hagv] at ha
      injection ha with h1
      rw [← h1]
      decide)
  exact ⟨⟨h.1 0 (by decide), h.1 1 (by decide)⟩, h.2.trans (by decide)⟩

/-- C3 witness: a session reporting difficulty_breathing yields the emergency
short-circuit on the sample knowledge base. -/
theorem diagnose_emergency_short_circuit_witness :
    (diagnose kbSample sessEmerg).emergency = true ∧
    (diagnose kbSample sessEmerg).confidence = some 1 ∧
    (diagnose kbSample sessEmerg).conditions = [] ∧
    (∃ alerts, (diagnose kbSample sessEmerg).alerts = some alerts ∧ alerts ≠ []) ∧
    ∀ kb2 : KnowledgeBase, diagnose kb2 sessEmerg = diagnose kbSample sessEmerg :=
  diagnose_emergency_short_circuit kbSample sessEmerg
    ⟨"difficulty_breathing", by decide, by decide⟩

/-- C4 witness: the ranking equation evaluated on the sample non-emergency
session. -/
theorem diagnose_ranking_spec_witness :
    (diagnose kbSample sessCough).conditions =
      (sortDesc ((score_conditions kbSample
        (apply_exclusion_rules
          (get_conditions_for_symptoms kbSample sessCough.reported_symptoms)
          sessCough.reported_symptoms sessCough.pet)
        (apply_pet_specific_rules kbSample sessCough.pet sessCough.reported_symptoms)
        sessCough.reported_symptoms).filter fun r =>
          decide (r.condition.confidence_threshold ≤ r.confidence))).take 3 ∧
    List.Pairwise (fun a b => b.confidence ≤ a.confidence)
      (diagnose kbSample sessCough).conditions :=
  diagnose_ranking_spec kbSample sessCough (by decide)

/-- C8 witness: the same pet and symptoms under two session identities give
identical conditions, recommendations, notes, questions and explanation. -/
theorem diagnose_deterministic_witness :
    (diagnose kbSample sessCough).emergency = (diagnose kbSample sessCough2).emergency ∧
    (diagnose kbSample sessCough).conditions = (diagnose kbSample sessCough2).conditions ∧
    (diagnose kbSample sessCough).recommendations =
      (diagnose kbSample sessCough2).recommendations ∧
    (diagnose kbSample sessCough).pet_specific_notes =
      (diagnose kbSample sessCough2).pet_specific_notes ∧
    (diagnose kbSample sessCough).follow_up_questions =
      (diagnose kbSample sessCough2).follow_up_questions ∧
    (diagnose kbSample sessCough).alerts = (diagnose kbSample sessCough2).alerts ∧
    (diagnose kbSample sessCough).recommendation =
      (diagnose kbSample sessCough2).recommendation ∧
    (diagnose kbSample sessCough).confidence = (diagnose kbSample sessCough2).confidence ∧
    explain_reasoning (diagnose kbSample sessCough) =
      explain_reasoning (diagnose kbSample sessCough2) :=
  diagnose_deterministic kbSample sessCough sessCough2 rfl rfl

end PetCare
